import Mathlib

/-!
A shallow embedding of the roadmap progress / analytics engine of the
`aura_server` backend (goal and roadmap progress rollups, velocity and
trend calculation, completion prediction, bottleneck detection, streak
calculation, and the AI-coaching fallback layer), together with theorems
settling the specification's testable properties against it.

JavaScript numbers are modelled as exact rationals (`ℚ`).  Where the code
can produce `NaN` (a `0 / 0` division in the velocity averages), values
are `Option ℚ` with `none` standing for `NaN`.  Instants are integers
(milliseconds); calendar days are integers (day indices), one day being
`86400000` ms.  Database reads are modelled by passing the fetched rows as
explicit list arguments; the external LLM call is modelled by an
`Option String` argument (`none` = the call failed after its retries).
-/

namespace Aura

/-- JS division as the analytics code uses it: every division whose
denominator can be `0` there also has numerator `0`, and `0 / 0` is `NaN`
(modelled as `none`). -/
def jsDiv (a b : ℚ) : Option ℚ :=
  if b = 0 then none else some (a / b)

/-- JS `<` on possibly-`NaN` numbers: any comparison with `NaN` is `false`. -/
def jsLt (a b : Option ℚ) : Bool :=
  match a, b with
  | some x, some y => decide (x < y)
  | _, _ => false

/-- JS `>` on possibly-`NaN` numbers: any comparison with `NaN` is `false`. -/
def jsGt (a b : Option ℚ) : Bool :=
  match a, b with
  | some x, some y => decide (y < x)
  | _, _ => false

/-- `parseFloat(x.toFixed(2))`: round to two decimals (all values rounded by
the analytics code are nonnegative, so half-up agrees with JS). -/
def toFixed2Q (q : ℚ) : ℚ := (round (q * 100) : ℤ) / 100

/-- `parseFloat(x.toFixed(2))` on a possibly-`NaN` number:
`NaN.toFixed(2) = "NaN"` and `parseFloat("NaN") = NaN`. -/
def toFixed2 (x : Option ℚ) : Option ℚ := x.map toFixed2Q

/-! ## Entity statuses (§3 of the spec) -/

/-- Milestone statuses: `{not_started, in_progress, completed, overdue, skipped}`. -/
inductive MilestoneStatus where
  | not_started
  | in_progress
  | completed
  | overdue
  | skipped
  deriving DecidableEq, Repr

/-- Goal statuses: `{not_started, in_progress, completed, blocked, abandoned}`. -/
inductive GoalStatus where
  | not_started
  | in_progress
  | completed
  | blocked
  | abandoned
  deriving DecidableEq, Repr

/-! ## Progress rollup (goal.service.js `updateGoalProgress`,
roadmap.service.js `updateRoadmapProgress`) -/

/-- What `updateGoalProgress` writes back to the goal row, plus whether the
fire-and-forget "goal completed" notification is emitted. -/
structure GoalUpdate where
  completionPercentage : ℚ
  status : GoalStatus
  notifies : Bool
  deriving DecidableEq, Repr

/-- `updateGoalProgress(goalId)` (goal.service.js): recompute a goal's
`completionPercentage` and `status` from its milestones' statuses.
`milestones` are the statuses of the goal's milestone rows and `cur` the
goal's status before the update (read to decide the notification). -/
def updateGoalProgress (milestones : List MilestoneStatus) (cur : GoalStatus) :
    GoalUpdate :=
  if milestones.length = 0 then
    { completionPercentage := 0, status := .not_started, notifies := false }
  else
    let completedMilestones := (milestones.filter (· = .completed)).length
    let completionPercentage : ℚ :=
      ((completedMilestones : ℚ) / (milestones.length : ℚ)) * 100
    let status : GoalStatus :=
      if completionPercentage = 100 then .completed
      else if 0 < completionPercentage then .in_progress
      else .not_started
    { completionPercentage := completionPercentage
      status := status
      notifies := decide (status = .completed ∧ cur ≠ .completed) }

/-- `parseFloat(goal.completionPercentage || 0)`: the falsy `0` maps to `0`,
so on stored numeric percentages this is the identity. -/
def jsOrZero (q : ℚ) : ℚ := if q = 0 then 0 else q

/-- `updateRoadmapProgress(roadmapId)` (roadmap.service.js): the stored
`progressPercentage`, computed from the `completionPercentage` of the
roadmap's goals (`0` when there are no goals). -/
def updateRoadmapProgress (goals : List ℚ) : ℚ :=
  if goals.length = 0 then 0
  else ((goals.map jsOrZero).sum) / (goals.length : ℚ)

/-- The spec's unweighted `mean` of a list of percentages.  With `ℚ`'s
`x / 0 = 0` convention, `mean [] = 0`, matching the spec's empty case. -/
def mean (ps : List ℚ) : ℚ := ps.sum / (ps.length : ℚ)

theorem jsOrZero_eq (q : ℚ) : jsOrZero q = q := by
  unfold jsOrZero; split <;> simp_all

/-- C1: for a goal with `N` milestones of which `K` are completed,
`updateGoalProgress` stores `completionPercentage = (K/N)*100` and sets the
status to `completed` iff `K = N`, `not_started` iff `K = 0`, and
`in_progress` otherwise; with `N = 0` it stores percentage `0` and status
`not_started`. -/
theorem updateGoalProgress_spec (ms : List MilestoneStatus) (cur : GoalStatus) :
    (ms.length = 0 →
      (updateGoalProgress ms cur).completionPercentage = 0 ∧
      (updateGoalProgress ms cur).status = .not_started) ∧
    (ms.length ≠ 0 →
      (updateGoalProgress ms cur).completionPercentage =
        (((ms.filter (· = .completed)).length : ℚ) / (ms.length : ℚ)) * 100 ∧
      ((updateGoalProgress ms cur).status = .completed ↔
        (ms.filter (· = .completed)).length = ms.length) ∧
      ((updateGoalProgress ms cur).status = .not_started ↔
        (ms.filter (· = .completed)).length = 0) ∧
      ((updateGoalProgress ms cur).status = .in_progress ↔
        0 < (ms.filter (· = .completed)).length ∧
          (ms.filter (· = .completed)).length < ms.length)) := by
  refine ⟨fun h => by simp [updateGoalProgress, h], fun h => ?_⟩
  have hKNle : (ms.filter (· = .completed)).length ≤ ms.length :=
    List.length_filter_le _ _
  have hpctval : (updateGoalProgress ms cur).completionPercentage =
      (((ms.filter (· = .completed)).length : ℚ) / (ms.length : ℚ)) * 100 := by
    simp only [updateGoalProgress, if_neg h]
  have hstat : (updateGoalProgress ms cur).status =
      (if (((ms.filter (· = .completed)).length : ℚ) / (ms.length : ℚ)) * 100 = 100
       then GoalStatus.completed
       else if 0 < (((ms.filter (· = .completed)).length : ℚ) / (ms.length : ℚ)) * 100
       then GoalStatus.in_progress else GoalStatus.not_started) := by
    simp only [updateGoalProgress, if_neg h]
  set K := (ms.filter (· = .completed)).length with hK
  set N := ms.length with hN
  have hN0 : 0 < N := Nat.pos_of_ne_zero h
  have hNQ : (0 : ℚ) < (N : ℚ) := by exact_mod_cast hN0
  have hpct : ((K : ℚ) / (N : ℚ)) * 100 = 100 ↔ K = N := by
    rw [div_mul_eq_mul_div, div_eq_iff (ne_of_gt hNQ)]
    constructor
    · intro hEq
      have : (K : ℚ) = (N : ℚ) := by linarith
      exact_mod_cast this
    · intro hEq
      rw [hEq]; ring
  have hpos : 0 < ((K : ℚ) / (N : ℚ)) * 100 ↔ 0 < K := by
    constructor
    · intro hp
      by_contra hc
      have hc0 : K = 0 := by omega
      rw [hc0] at hp
      norm_num at hp
    · intro hp
      have hKQ : (0 : ℚ) < (K : ℚ) := by exact_mod_cast hp
      exact mul_pos (div_pos hKQ hNQ) (by norm_num)
  refine ⟨hpctval, ?_, ?_, ?_⟩ <;> rw [hstat]
  · by_cases hA : ((K : ℚ) / (N : ℚ)) * 100 = 100
    · have hKN' := hpct.mp hA
      rw [if_pos hA]
      simp [hKN']
    · have hne : K ≠ N := fun hc => hA (hpct.mpr hc)
      rw [if_neg hA]
      split <;> simp <;> omega
  · by_cases hA : ((K : ℚ) / (N : ℚ)) * 100 = 100
    · have hKN' := hpct.mp hA
      rw [if_pos hA]
      simp
      omega
    · have hne : K ≠ N := fun hc => hA (hpct.mpr hc)
      by_cases hB : 0 < ((K : ℚ) / (N : ℚ)) * 100
      · have h0 := hpos.mp hB
        rw [if_neg hA, if_pos hB]
        simp
        omega
      · have hK0 : K = 0 := by
          by_contra hc
          exact hB (hpos.mpr (Nat.pos_of_ne_zero hc))
        rw [if_neg hA, if_neg hB]
        simp [hK0]
  · by_cases hA : ((K : ℚ) / (N : ℚ)) * 100 = 100
    · have hKN' := hpct.mp hA
      rw [if_pos hA]
      simp
      omega
    · have hne : K ≠ N := fun hc => hA (hpct.mpr hc)
      by_cases hB : 0 < ((K : ℚ) / (N : ℚ)) * 100
      · have h0 := hpos.mp hB
        rw [if_neg hA, if_pos hB]
        simp
        omega
      · have hK0 : K = 0 := by
          by_contra hc
          exact hB (hpos.mpr (Nat.pos_of_ne_zero hc))
        rw [if_neg hA, if_neg hB]
        simp
        omega

/-- C6: `updateRoadmapProgress` stores the unweighted mean of the goals'
completion percentages, and `0` for a roadmap with no goals. -/
theorem updateRoadmapProgress_spec (ps : List ℚ) :
    updateRoadmapProgress ps = mean ps ∧ updateRoadmapProgress [] = 0 := by
  constructor
  · unfold updateRoadmapProgress mean
    have hmap : ps.map jsOrZero = ps := by
      have hfun : jsOrZero = fun q => q := funext jsOrZero_eq
      simp [hfun]
    rw [hmap]
    split
    · rename_i h
      have hnil : ps = [] := List.length_eq_zero.mp h
      subst hnil
      norm_num
    · rfl
  · rfl

/-! ## Velocity calculator (analytics.service.js `calculateVelocity`) -/

/-- One day in milliseconds. -/
def msPerDay : ℤ := 86400000

/-- `dayjs` day index of an instant (local `startOf('day')` floor). -/
def dayOf (t : ℤ) : ℤ := Int.fdiv t msPerDay

/-- The instant `startOf('day')` of day `d`. -/
def startOfDay (d : ℤ) : ℤ := d * msPerDay

/-- The instant `endOf('day')` of day `d` (`23:59:59.999`). -/
def endOfDay (d : ℤ) : ℤ := d * msPerDay + (msPerDay - 1)

/-- A completed roadmap task as selected by `calculateVelocity`:
completion instant and estimated duration in minutes (a `null` duration is
`none`, read back as `0` through `|| 0`). -/
structure CompletedTask where
  completedAt : ℤ
  estimatedDuration : Option ℚ
  deriving DecidableEq, Repr

/-- A completed milestone as selected by `calculateVelocity`. -/
structure CompletedMilestone where
  completionDate : ℤ
  deriving DecidableEq, Repr

/-- `t.estimatedDuration || 0`. -/
def durationOrZero (t : CompletedTask) : ℚ := t.estimatedDuration.getD 0

/-- One entry of the `weeklyData` array. -/
structure WeekBucket where
  weekStart : ℤ
  weekEnd : ℤ
  tasksCompleted : ℕ
  milestonesCompleted : ℕ
  totalHours : ℚ
  deriving DecidableEq, Repr

/-- Bucket `i` of the weekly breakdown: tasks and milestones completed in
`[startOf(today - (i+1)*7 days), endOf(today - i*7 days)]`, hours from the
tasks' durations (minutes) divided by `60`. -/
def weekBucket (today : ℤ) (tasks : List CompletedTask)
    (milestones : List CompletedMilestone) (i : ℕ) : WeekBucket :=
  let weekStart := startOfDay (today - ((i : ℤ) + 1) * 7)
  let weekEnd := endOfDay (today - (i : ℤ) * 7)
  let weekTasks := tasks.filter fun t =>
    decide (weekStart ≤ t.completedAt) && decide (t.completedAt ≤ weekEnd)
  let weekMilestones := milestones.filter fun m =>
    decide (weekStart ≤ m.completionDate) && decide (m.completionDate ≤ weekEnd)
  { weekStart := weekStart
    weekEnd := weekEnd
    tasksCompleted := weekTasks.length
    milestonesCompleted := weekMilestones.length
    totalHours := ((weekTasks.map durationOrZero).sum) / 60 }

/-- The trend classification of `calculateVelocity`, as a function of the
`tasksCompleted` counts of `weeklyData` (most recent bucket first):
`halfPoint = floor(length / 2)`, compare the two halves' average counts.
With an empty half the average is `0 / 0 = NaN` and both `NaN` comparisons
are false, yielding `stable`. -/
def trendOf (weekly : List ℕ) : String :=
  let halfPoint := weekly.length / 2
  let firstHalfAvg :=
    jsDiv (((weekly.take halfPoint).map (fun n => (n : ℚ))).sum) (halfPoint : ℚ)
  let secondHalfAvg :=
    jsDiv (((weekly.drop halfPoint).map (fun n => (n : ℚ))).sum)
      ((weekly.length - halfPoint : ℕ) : ℚ)
  if jsGt secondHalfAvg firstHalfAvg then "increasing"
  else if jsLt secondHalfAvg firstHalfAvg then "decreasing"
  else "stable"

/-- The `averages` object of the velocity report (possibly `NaN`). -/
structure VelocityAverages where
  tasksPerWeek : Option ℚ
  milestonesPerWeek : Option ℚ
  hoursPerWeek : Option ℚ
  tasksPerDay : Option ℚ
  deriving DecidableEq, Repr

/-- The `totals` object of the velocity report. -/
structure VelocityTotals where
  tasksCompleted : ℕ
  milestonesCompleted : ℕ
  totalHours : ℚ
  deriving DecidableEq, Repr

/-- The velocity report. -/
structure Velocity where
  totals : VelocityTotals
  averages : VelocityAverages
  trend : String
  weeklyBreakdown : List WeekBucket
  deriving DecidableEq, Repr

/-- `calculateVelocity(userId, days)` (analytics.service.js): the user's
completed roadmap tasks and milestones are the rows the two queries fetch
(`now` is the current instant; the date-range filter of the queries is
applied here).  `ceil(days / 7)` weekly buckets are built, averages are
window sums divided by the bucket count — with no zero-denominator guard,
so zero buckets give `0 / 0 = NaN` — and the trend compares the two halves
of the bucket list.  The public `weeklyBreakdown` is reversed. -/
def calculateVelocity (now : ℤ) (days : ℕ) (allTasks : List CompletedTask)
    (allMilestones : List CompletedMilestone) : Velocity :=
  let today := dayOf now
  let startDate := startOfDay (today - (days : ℤ))
  let endDate := endOfDay today
  let completedTasks := allTasks.filter fun t =>
    decide (startDate ≤ t.completedAt) && decide (t.completedAt ≤ endDate)
  let completedMilestones := allMilestones.filter fun m =>
    decide (startDate ≤ m.completionDate) && decide (m.completionDate ≤ endDate)
  let weeklyData :=
    (List.range ((days + 6) / 7)).map (weekBucket today completedTasks completedMilestones)
  let avgTasksPerWeek :=
    jsDiv ((weeklyData.map (fun w => (w.tasksCompleted : ℚ))).sum) (weeklyData.length : ℚ)
  let avgMilestonesPerWeek :=
    jsDiv ((weeklyData.map (fun w => (w.milestonesCompleted : ℚ))).sum) (weeklyData.length : ℚ)
  let avgHoursPerWeek :=
    jsDiv ((weeklyData.map (fun w => w.totalHours)).sum) (weeklyData.length : ℚ)
  { totals :=
      { tasksCompleted := completedTasks.length
        milestonesCompleted := completedMilestones.length
        totalHours := ((completedTasks.map durationOrZero).sum) / 60 }
    averages :=
      { tasksPerWeek := toFixed2 avgTasksPerWeek
        milestonesPerWeek := toFixed2 avgMilestonesPerWeek
        hoursPerWeek := toFixed2 avgHoursPerWeek
        tasksPerDay := toFixed2 (avgTasksPerWeek.map (fun q => q / 7)) }
    trend := trendOf (weeklyData.map (fun w => w.tasksCompleted))
    weeklyBreakdown := weeklyData.reverse }

theorem weekBucket_nil (today : ℤ) (i : ℕ) :
    weekBucket today [] [] i =
      { weekStart := startOfDay (today - ((i : ℤ) + 1) * 7)
        weekEnd := endOfDay (today - (i : ℤ) * 7)
        tasksCompleted := 0
        milestonesCompleted := 0
        totalHours := 0 } := by
  simp [weekBucket]

/-- With no completed work and at least one bucket, every average of
`calculateVelocity` is an actual `0` (the window sums are zero and the
bucket count is a nonzero divisor). -/
theorem calculateVelocity_empty_averages (now : ℤ) (days : ℕ) (hdays : 0 < days) :
    (calculateVelocity now days [] []).averages =
      { tasksPerWeek := some 0, milestonesPerWeek := some 0,
        hoursPerWeek := some 0, tasksPerDay := some 0 } := by
  have hn : ((days + 6) / 7 : ℕ) ≠ 0 := by omega
  have hnQ : (((days + 6) / 7 : ℕ) : ℚ) ≠ 0 := by exact_mod_cast hn
  have hzero : ∀ f : WeekBucket → ℚ, (∀ i : ℕ, f (weekBucket (dayOf now) [] [] i) = 0) →
      (((List.range ((days + 6) / 7)).map (f ∘ weekBucket (dayOf now) [] [])).sum
        : ℚ) = 0 := by
    intro f hf
    apply List.sum_eq_zero
    intro x hx
    simp only [List.mem_map, List.mem_range, Function.comp] at hx
    obtain ⟨i, _, rfl⟩ := hx
    exact hf i
  have h1 : (((List.range ((days + 6) / 7)).map
      ((fun w => (w.tasksCompleted : ℚ)) ∘ weekBucket (dayOf now) [] [])).sum : ℚ) = 0 :=
    hzero _ fun i => by simp [weekBucket_nil]
  have h2 : (((List.range ((days + 6) / 7)).map
      ((fun w => (w.milestonesCompleted : ℚ)) ∘ weekBucket (dayOf now) [] [])).sum : ℚ) = 0 :=
    hzero _ fun i => by simp [weekBucket_nil]
  have h3 : (((List.range ((days + 6) / 7)).map
      ((fun w => w.totalHours) ∘ weekBucket (dayOf now) [] [])).sum : ℚ) = 0 :=
    hzero _ fun i => by simp [weekBucket_nil]
  norm_num [calculateVelocity, h1, h2, h3, jsDiv, toFixed2, toFixed2Q, hnQ]

/-- C2: `calculateVelocity` does NOT guard its divisions by the bucket
count.  A window of `0` days yields `ceil(0/7) = 0` buckets and every
average is `0 / 0 = NaN` (first conjunct, the failing case), while any
window with at least one bucket and no completed work gives the `0`
averages the spec demands (second conjunct). -/
theorem calculateVelocity_division_unguarded (now : ℤ) (days : ℕ) :
    ((calculateVelocity now 0 [] []).averages.tasksPerWeek = none ∧
     (calculateVelocity now 0 [] []).averages.milestonesPerWeek = none ∧
     (calculateVelocity now 0 [] []).averages.hoursPerWeek = none ∧
     (calculateVelocity now 0 [] []).averages.tasksPerDay = none) ∧
    (0 < days →
     (calculateVelocity now days [] []).averages.tasksPerWeek = some 0 ∧
     (calculateVelocity now days [] []).averages.milestonesPerWeek = some 0 ∧
     (calculateVelocity now days [] []).averages.hoursPerWeek = some 0 ∧
     (calculateVelocity now days [] []).averages.tasksPerDay = some 0) := by
  constructor
  · norm_num [calculateVelocity, jsDiv, toFixed2]
  · intro hdays
    simp [calculateVelocity_empty_averages now days hdays]

theorem trendOf_halves (a b : List ℕ) (h : a.length = b.length)
    (hne : 0 < a.length) :
    trendOf (a ++ b) =
      (if ((a.map (fun n => (n : ℚ))).sum < (b.map (fun n => (n : ℚ))).sum)
       then "increasing"
       else if ((b.map (fun n => (n : ℚ))).sum < (a.map (fun n => (n : ℚ))).sum)
       then "decreasing"
       else "stable") := by
  have h2 : (a ++ b).length / 2 = a.length := by
    rw [List.length_append, ← h]
    omega
  have h3 : (a ++ b).length - a.length = a.length := by
    rw [List.length_append, ← h]
    omega
  have hQ : (0 : ℚ) < (a.length : ℚ) := by exact_mod_cast hne
  simp only [trendOf, h2, h3, List.take_left, List.drop_left]
  rw [jsDiv, jsDiv, if_neg (ne_of_gt hQ), if_neg (ne_of_gt hQ)]
  simp only [jsGt, jsLt, decide_eq_true_eq, div_lt_div_iff_of_pos_right hQ]

/-- C7 (counterexample): with an odd number of buckets, swapping the first
half (`[0]`, the `floor(3/2) = 1` most recent bucket) and the second half
(`[0, 10]`) does NOT flip the trend label: both orders classify as
`increasing`. -/
theorem trendOf_swap_counterexample :
    trendOf ([0] ++ [0, 10]) = "increasing" ∧
    trendOf ([0, 10] ++ [0]) ≠ "decreasing" := by
  have hs : trendOf ([0, 10] ++ [0]) = "increasing" := by
    norm_num [trendOf, jsDiv, jsGt, jsLt]
  constructor
  · norm_num [trendOf, jsDiv, jsGt, jsLt]
  · intro hc
    rw [hs] at hc
    exact absurd hc (by decide)

/-- C7 (amended): for an even bucket count — equal-length halves — swapping
the two halves exchanges `increasing` and `decreasing` (and fixes
`stable`); and whenever both halves are non-empty and have equal mean
tasks-completed, the label is `stable`. -/
theorem trendOf_symmetry_even :
    (∀ a b : List ℕ, a.length = b.length →
      trendOf (b ++ a) =
        (if trendOf (a ++ b) = "increasing" then "decreasing"
         else if trendOf (a ++ b) = "decreasing" then "increasing"
         else trendOf (a ++ b))) ∧
    (∀ w : List ℕ, 2 ≤ w.length →
      ((w.take (w.length / 2)).map (fun n => (n : ℚ))).sum / ((w.length / 2 : ℕ) : ℚ) =
        ((w.drop (w.length / 2)).map (fun n => (n : ℚ))).sum /
          ((w.length - w.length / 2 : ℕ) : ℚ) →
      trendOf w = "stable") := by
  constructor
  · intro a b hlen
    by_cases ha : a = []
    · have hb : b = [] := by
        rw [← List.length_eq_zero, ← hlen, ha]
        rfl
      subst ha
      subst hb
      have h0 : trendOf (([] : List ℕ) ++ []) = "stable" := by
        norm_num [trendOf, jsDiv, jsGt, jsLt]
      rw [h0]
      decide
    · have hpos : 0 < a.length := List.length_pos.mpr ha
      have hpos' : 0 < b.length := by omega
      rw [trendOf_halves a b hlen hpos, trendOf_halves b a hlen.symm hpos']
      rcases lt_trichotomy ((a.map (fun n => (n : ℚ))).sum)
          ((b.map (fun n => (n : ℚ))).sum) with hlt | heq | hgt
      · simp only [if_pos hlt, if_neg (lt_asymm hlt)]
        decide
      · simp only [heq, lt_self_iff_false, if_false]
        decide
      · simp only [if_pos hgt, if_neg (lt_asymm hgt)]
        decide
  · intro w hw hmean
    have hhalf : (0 : ℚ) < ((w.length / 2 : ℕ) : ℚ) := by
      have : 0 < w.length / 2 := by omega
      exact_mod_cast this
    have hrest : (0 : ℚ) < ((w.length - w.length / 2 : ℕ) : ℚ) := by
      have : 0 < w.length - w.length / 2 := by omega
      exact_mod_cast this
    simp only [trendOf]
    rw [jsDiv, jsDiv, if_neg (ne_of_gt hhalf), if_neg (ne_of_gt hrest)]
    simp only [jsGt, jsLt, decide_eq_true_eq, hmean, lt_self_iff_false, if_false]

/-! ## Completion predictor (analytics.service.js `predictRoadmapCompletion`) -/

/-- A milestone row as selected by `predictRoadmapCompletion` (status and
`estimatedEffortHours`, `null` hours modelled as `none` and read back as
`0` through `|| 0`). -/
structure PMilestone where
  status : MilestoneStatus
  estimatedEffortHours : Option ℚ
  deriving DecidableEq, Repr

/-- `parseFloat(x.toFixed(1))` (one decimal, nonnegative values). -/
def toFixed1Q (q : ℚ) : ℚ := (round (q * 10) : ℤ) / 10

/-- `dayjs.diff` truncation toward zero. -/
def jsTrunc (q : ℚ) : ℤ := if q < 0 then ⌈q⌉ else ⌊q⌋

/-- The prediction object.  The two return branches of the source produce
different shapes; fields absent from a branch are `none` here.  Dates are
rational instants (`weeksNeeded` is fractional). -/
structure Prediction where
  predictedCompletionDate : Option ℚ
  confidence : String
  remainingHours : ℚ
  estimatedWeeks : Option ℚ
  message : Option String
  currentVelocity : Option ℚ
  onTrack : Option Bool
  scheduledEndDate : Option ℤ
  daysAheadOrBehind : Option ℤ
  deriving DecidableEq, Repr

/-- `predictRoadmapCompletion(roadmapId)` (analytics.service.js):
`milestones` are the milestone rows under the roadmap's goals (flattened),
`endDate` the roadmap's stored end date, and `tasks`/`completedMs` the
owning user's completed work feeding the 30-day `calculateVelocity` call.
If `hoursPerWeek === 0` the no-data branch returns a null date, `low`
confidence and an explanatory message, with no division by the rate. -/
def predictRoadmapCompletion (now : ℤ) (endDate : ℤ)
    (milestones : List PMilestone) (tasks : List CompletedTask)
    (completedMs : List CompletedMilestone) : Prediction :=
  let incompleteMilestones := milestones.filter fun m => decide (m.status ≠ .completed)
  let remainingHours :=
    (incompleteMilestones.map (fun m => m.estimatedEffortHours.getD 0)).sum
  let velocity := calculateVelocity now 30 tasks completedMs
  let hoursPerWeek := velocity.averages.hoursPerWeek
  if hoursPerWeek = some 0 then
    { predictedCompletionDate := none
      confidence := "low"
      remainingHours := remainingHours
      estimatedWeeks := none
      message := some "Not enough data to predict. Complete some tasks to see predictions."
      currentVelocity := none
      onTrack := none
      scheduledEndDate := none
      daysAheadOrBehind := none }
  else
    let weeksNeeded := hoursPerWeek.map fun q => remainingHours / q
    let predictedDate := weeksNeeded.map fun w => (now : ℚ) + w * 7 * (msPerDay : ℚ)
    let dataPoints := velocity.totals.tasksCompleted
    let confidence := if 50 ≤ dataPoints then "high"
      else if 20 ≤ dataPoints then "medium" else "low"
    { predictedCompletionDate := predictedDate
      confidence := confidence
      remainingHours := toFixed2Q remainingHours
      estimatedWeeks := weeksNeeded.map toFixed1Q
      message := none
      currentVelocity := hoursPerWeek
      onTrack := some (jsLt predictedDate (some (endDate : ℚ)))
      scheduledEndDate := some endDate
      daysAheadOrBehind :=
        predictedDate.map fun p => jsTrunc (((endDate : ℚ) - p) / (msPerDay : ℚ)) }

/-- C3: whenever the 30-day velocity shows `hoursPerWeek == 0`, the
prediction — for any remaining-hours total — is the no-data branch:
confidence `low`, `predictedCompletionDate` null, an explanatory message,
and no `estimatedWeeks` (no division by the zero rate is performed). -/
theorem predictRoadmapCompletion_zero_rate (now endDate : ℤ)
    (milestones : List PMilestone) (tasks : List CompletedTask)
    (completedMs : List CompletedMilestone)
    (h : (calculateVelocity now 30 tasks completedMs).averages.hoursPerWeek = some 0) :
    (predictRoadmapCompletion now endDate milestones tasks completedMs).confidence
      = "low" ∧
    (predictRoadmapCompletion now endDate milestones tasks
      completedMs).predictedCompletionDate = none ∧
    (predictRoadmapCompletion now endDate milestones tasks completedMs).message
      = some "Not enough data to predict. Complete some tasks to see predictions." ∧
    (predictRoadmapCompletion now endDate milestones tasks
      completedMs).estimatedWeeks = none := by
  simp [predictRoadmapCompletion, h]

/-- C3 witness: a roadmap with `40` remaining effort hours and a user with
no completed tasks (so `hoursPerWeek = 0`). -/
theorem predictRoadmapCompletion_zero_rate_witness :
    (predictRoadmapCompletion 0 0 [⟨.not_started, some 40⟩] [] []).confidence
      = "low" ∧
    (predictRoadmapCompletion 0 0 [⟨.not_started, some 40⟩] []
      []).predictedCompletionDate = none ∧
    (predictRoadmapCompletion 0 0 [⟨.not_started, some 40⟩] [] []).message
      = some "Not enough data to predict. Complete some tasks to see predictions." ∧
    (predictRoadmapCompletion 0 0 [⟨.not_started, some 40⟩] [] []).estimatedWeeks
      = none :=
  predictRoadmapCompletion_zero_rate 0 0 [⟨.not_started, some 40⟩] [] []
    (by simp [calculateVelocity_empty_averages 0 30 (by norm_num)])

/-! ## Bottleneck detector (analytics.service.js `detectBottlenecks`) -/

/-- Ascending insertion of one element (helper for the `sort` calls and the
queries' `orderBy`; no property proved here depends on tie order). -/
def insertAsc (le : α → α → Bool) (x : α) : List α → List α
  | [] => [x]
  | y :: ys => if le x y then x :: y :: ys else y :: insertAsc le x ys

/-- Ascending sort by a boolean comparison. -/
def sortAsc (le : α → α → Bool) : List α → List α
  | [] => []
  | x :: xs => insertAsc le x (sortAsc le xs)

/-- A milestone row with the goal/roadmap annotations `detectBottlenecks`
includes. -/
structure BMilestone where
  title : String
  status : MilestoneStatus
  dueDate : ℤ
  goalTitle : String
  category : String
  roadmapTitle : String
  deriving DecidableEq, Repr

/-- One entry of the overdue-milestones report. -/
structure OverdueEntry where
  milestoneTitle : String
  dueDate : ℤ
  daysOverdue : ℤ
  goalTitle : String
  category : String
  roadmapTitle : String
  deriving DecidableEq, Repr

/-- A goal row with its milestones' statuses, as fetched for the
struggling-goals scan. -/
structure BGoal where
  title : String
  category : String
  roadmapTitle : String
  status : GoalStatus
  milestones : List MilestoneStatus
  deriving DecidableEq, Repr

/-- One entry of the struggling-goals report. -/
structure StrugglingGoal where
  goalTitle : String
  category : String
  roadmapTitle : String
  completionRate : ℚ
  totalMilestones : ℕ
  completedMilestones : ℕ
  deriving DecidableEq, Repr

/-- One row of the raw per-category aggregation (the SQL `GROUP BY`
result, before its `HAVING COUNT(...) >= 5` clause, which is applied in
the definition below). -/
structure CategoryStat where
  category : String
  totalTasks : ℕ
  completedTasks : ℕ
  deriving DecidableEq, Repr

/-- One entry of the underperforming-categories report. -/
structure CategoryRate where
  category : String
  totalTasks : ℕ
  completedTasks : ℕ
  completionRate : ℚ
  deriving DecidableEq, Repr

/-- The `summary` object of the bottleneck report. -/
structure BottleneckSummary where
  totalOverdue : ℕ
  strugglingGoalsCount : ℕ
  underperformingCategoriesCount : ℕ
  severity : String
  deriving DecidableEq, Repr

/-- The bottleneck report. -/
structure BottleneckReport where
  overdueMilestones : List OverdueEntry
  strugglingGoals : List StrugglingGoal
  underperformingCategories : List CategoryRate
  summary : BottleneckSummary
  deriving DecidableEq, Repr

/-- `detectBottlenecks(userId)` (analytics.service.js): `milestones` and
`goals` are the user's rows (the queries' status/dueDate filters are
applied here), `categoryStats` the raw per-category task aggregation.
Overdue milestones are annotated with truncated days-overdue; struggling
goals are non-completed goals with at least `3` milestones and a rate
below `30%`; categories need at least `5` tasks and a rate below `50%`;
severity is classified from the overdue and struggling counts. -/
def detectBottlenecks (now : ℤ) (milestones : List BMilestone)
    (goals : List BGoal) (categoryStats : List CategoryStat) : BottleneckReport :=
  let overdueMilestones := sortAsc (fun a b => decide (a.dueDate ≤ b.dueDate))
    (milestones.filter fun m =>
      (decide (m.status = .not_started) || decide (m.status = .in_progress)) &&
        decide (m.dueDate < now))
  let strugglingGoals := sortAsc (fun a b => decide (a.completionRate ≤ b.completionRate))
    (((goals.filter fun g => decide (g.status ≠ .completed)).map fun g =>
        let total : ℕ := g.milestones.length
        let completed : ℕ := (g.milestones.filter (· = MilestoneStatus.completed)).length
        let completionRate : ℚ := if 0 < total then (completed : ℚ) / (total : ℚ) else 0
        ({ goalTitle := g.title
           category := g.category
           roadmapTitle := g.roadmapTitle
           completionRate := toFixed2Q (completionRate * 100)
           totalMilestones := total
           completedMilestones := completed } : StrugglingGoal)).filter
      fun g => decide (3 ≤ g.totalMilestones) && decide (g.completionRate < 30))
  let underperformingCategories :=
    sortAsc (fun a b => decide (a.completionRate ≤ b.completionRate))
      ((((categoryStats.filter fun c => decide (5 ≤ c.totalTasks)).map fun c =>
          ({ category := c.category
             totalTasks := c.totalTasks
             completedTasks := c.completedTasks
             completionRate :=
               toFixed2Q (((c.completedTasks : ℚ) / (c.totalTasks : ℚ)) * 100) }
            : CategoryRate)).filter fun c => decide (c.completionRate < 50)))
  { overdueMilestones := overdueMilestones.map fun m =>
      { milestoneTitle := m.title
        dueDate := m.dueDate
        daysOverdue := jsTrunc (((now : ℚ) - (m.dueDate : ℚ)) / (msPerDay : ℚ))
        goalTitle := m.goalTitle
        category := m.category
        roadmapTitle := m.roadmapTitle }
    strugglingGoals := strugglingGoals
    underperformingCategories := underperformingCategories
    summary :=
      { totalOverdue := overdueMilestones.length
        strugglingGoalsCount := strugglingGoals.length
        underperformingCategoriesCount := underperformingCategories.length
        severity :=
          if 5 < overdueMilestones.length ∨ 3 < strugglingGoals.length then "high"
          else if 2 < overdueMilestones.length then "medium" else "low" } }

theorem severity_formula (o s : ℕ) :
    (((if 5 < o ∨ 3 < s then "high" else if 2 < o then "medium" else "low")
        = "high") ↔ 5 < o ∨ 3 < s) ∧
    (((if 5 < o ∨ 3 < s then "high" else if 2 < o then "medium" else "low")
        = "medium") ↔ o ≤ 5 ∧ s ≤ 3 ∧ 2 < o) ∧
    (((if 5 < o ∨ 3 < s then "high" else if 2 < o then "medium" else "low")
        = "low") ↔ o ≤ 2 ∧ s ≤ 3) := by
  by_cases h1 : 5 < o ∨ 3 < s
  · rw [if_pos h1]
    exact ⟨⟨fun _ => h1, fun _ => rfl⟩,
      ⟨fun hc => absurd hc (by decide), fun ⟨a, b, c⟩ => absurd h1 (by omega)⟩,
      ⟨fun hc => absurd hc (by decide), fun ⟨a, b⟩ => absurd h1 (by omega)⟩⟩
  · rw [if_neg h1]
    by_cases h2 : 2 < o
    · rw [if_pos h2]
      exact ⟨⟨fun hc => absurd hc (by decide), fun hd => absurd hd h1⟩,
        ⟨fun _ => by omega, fun _ => rfl⟩,
        ⟨fun hc => absurd hc (by decide), fun ⟨a, _⟩ => absurd h2 (by omega)⟩⟩
    · rw [if_neg h2]
      exact ⟨⟨fun hc => absurd hc (by decide), fun hd => absurd hd h1⟩,
        ⟨fun hc => absurd hc (by decide), fun ⟨_, _, c⟩ => absurd c h2⟩,
        ⟨fun _ => by omega, fun _ => rfl⟩⟩

/-- C5: `detectBottlenecks` classifies `summary.severity` as `high` iff the
overdue count exceeds `5` or the struggling-goal count exceeds `3`,
`medium` iff neither holds and the overdue count exceeds `2`, and `low`
otherwise; in particular `6` overdue milestones with no struggling goals
give `high`, `3` give `medium` and `1` gives `low`. -/
theorem detectBottlenecks_severity (now : ℤ) (milestones : List BMilestone)
    (goals : List BGoal) (categoryStats : List CategoryStat) :
    (((detectBottlenecks now milestones goals categoryStats).summary.severity = "high" ↔
       5 < (detectBottlenecks now milestones goals categoryStats).summary.totalOverdue ∨
       3 < (detectBottlenecks now milestones goals
        categoryStats).summary.strugglingGoalsCount) ∧
     ((detectBottlenecks now milestones goals categoryStats).summary.severity = "medium" ↔
       (detectBottlenecks now milestones goals categoryStats).summary.totalOverdue ≤ 5 ∧
       (detectBottlenecks now milestones goals
        categoryStats).summary.strugglingGoalsCount ≤ 3 ∧
       2 < (detectBottlenecks now milestones goals categoryStats).summary.totalOverdue) ∧
     ((detectBottlenecks now milestones goals categoryStats).summary.severity = "low" ↔
       (detectBottlenecks now milestones goals categoryStats).summary.totalOverdue ≤ 2 ∧
       (detectBottlenecks now milestones goals
        categoryStats).summary.strugglingGoalsCount ≤ 3)) ∧
    (detectBottlenecks 0
      (List.replicate 6 ⟨"m", .not_started, -1, "g", "c", "r"⟩) [] []).summary.severity
      = "high" ∧
    (detectBottlenecks 0
      (List.replicate 3 ⟨"m", .not_started, -1, "g", "c", "r"⟩) [] []).summary.severity
      = "medium" ∧
    (detectBottlenecks 0
      (List.replicate 1 ⟨"m", .not_started, -1, "g", "c", "r"⟩) [] []).summary.severity
      = "low" := by
  refine ⟨?_, by decide, by decide, by decide⟩
  simp only [detectBottlenecks]
  exact severity_formula _ _

/-! ## Streak calculator (analytics.service.js `getStreak`) -/

/-- `[...new Set(dates)]`: deduplicate keeping the first occurrence,
preserving order. -/
def jsSetDedup : List ℤ → List ℤ
  | [] => []
  | x :: xs => x :: jsSetDedup (xs.filter fun y => decide (y ≠ x))
  termination_by l => l.length
  decreasing_by
    simp only [List.length_cons]
    exact Nat.lt_succ_of_le (List.length_filter_le _ _)

/-- The current-streak loop: starting at `checkDate`, walk back one day at
a time while the date is in `uniq`, for at most `fuel` iterations (the
source caps the loop at `365`). -/
def currentStreakLoop (uniq : List ℤ) : ℤ → ℕ → ℕ
  | _, 0 => 0
  | checkDate, fuel + 1 =>
    if checkDate ∈ uniq then currentStreakLoop uniq (checkDate - 1) fuel + 1 else 0

/-- The longest-streak scan over the remaining unique dates (descending):
`prev` is the previously seen date, a difference of exactly one day extends
the running streak; the final `max` with the running streak mirrors the
source's closing `Math.max(longestStreak, tempStreak, ...)`. -/
def longestAux : List ℤ → ℤ → ℕ → ℕ → ℕ
  | [], _, tempStreak, longestStreak => max longestStreak tempStreak
  | curr :: rest, prev, tempStreak, longestStreak =>
    if prev - curr = 1 then
      longestAux rest curr (tempStreak + 1) (max longestStreak (tempStreak + 1))
    else
      longestAux rest curr 1 longestStreak

/-- The streak report. -/
structure StreakInfo where
  currentStreak : ℕ
  longestStreak : ℕ
  lastActiveDate : Option ℤ
  totalActiveDays : ℕ
  deriving DecidableEq, Repr

/-- `getStreak(userId)` (analytics.service.js): `completedDates` are the
calendar-day indices of the user's completed tasks, in the order fetched
(`completedAt` descending).  Unique dates keep the first occurrence; the
current streak walks back from `today` for at most `365` steps; the longest
streak scans consecutive runs and is finally maxed with the current
streak. -/
def getStreak (today : ℤ) (completedDates : List ℤ) : StreakInfo :=
  if completedDates.isEmpty then
    { currentStreak := 0, longestStreak := 0, lastActiveDate := none,
      totalActiveDays := 0 }
  else
    let uniqueDates := jsSetDedup completedDates
    let currentStreak := currentStreakLoop uniqueDates today 365
    let longestStreak :=
      match uniqueDates with
      | [] => 0
      | p :: rest => longestAux rest p 1 0
    { currentStreak := currentStreak
      longestStreak := max longestStreak currentStreak
      lastActiveDate := completedDates.head?
      totalActiveDays := uniqueDates.length }

theorem currentStreakLoop_succ (uniq : List ℤ) (d : ℤ) (n : ℕ) :
    currentStreakLoop uniq d (n + 1) =
      if d ∈ uniq then currentStreakLoop uniq (d - 1) n + 1 else 0 := rfl

theorem currentStreakLoop_le (uniq : List ℤ) (d : ℤ) (n : ℕ) :
    currentStreakLoop uniq d n ≤ n := by
  induction n generalizing d with
  | zero => simp [currentStreakLoop]
  | succ n ih =>
    rw [currentStreakLoop_succ]
    split
    · exact Nat.succ_le_succ (ih _)
    · omega

theorem currentStreakLoop_full (uniq : List ℤ) (d : ℤ) (n : ℕ)
    (h : ∀ k : ℕ, k < n → d - (k : ℤ) ∈ uniq) :
    currentStreakLoop uniq d n = n := by
  induction n generalizing d with
  | zero => simp [currentStreakLoop]
  | succ n ih =>
    have h0 : d ∈ uniq := by simpa using h 0 (Nat.succ_pos n)
    rw [currentStreakLoop_succ, if_pos h0]
    have hrec : currentStreakLoop uniq (d - 1) n = n := by
      apply ih
      intro k hk
      have hmem := h (k + 1) (by omega)
      have harith : d - ((k : ℤ) + 1) = d - 1 - (k : ℤ) := by ring
      rw [show ((k + 1 : ℕ) : ℤ) = (k : ℤ) + 1 from by push_cast; ring, harith] at hmem
      exact hmem
    omega

theorem jsSetDedup_mem (l : List ℤ) (x : ℤ) : x ∈ jsSetDedup l ↔ x ∈ l := by
  induction l using jsSetDedup.induct with
  | case1 => simp [jsSetDedup]
  | case2 a xs ih =>
    simp only [jsSetDedup, List.mem_cons, ih, List.mem_filter,
      decide_eq_true_eq]
    by_cases hxa : x = a
    · simp [hxa]
    · simp [hxa]

/-- C4: the current streak walks back from today while each day is among
the distinct completion dates, stopping at the first gap: completions on
exactly `{today, today-1, today-2}` give a current streak of `3`; a single
completion on `today-2` gives current streak `0` (today itself is absent —
the walk does not skip to yesterday) and longest streak `1`; in general a
user with no completion today has current streak `0`. -/
theorem getStreak_examples (today : ℤ) :
    (getStreak today [today, today - 1, today - 2]).currentStreak = 3 ∧
    ((getStreak today [today - 2]).currentStreak = 0 ∧
      (getStreak today [today - 2]).longestStreak = 1) ∧
    (∀ dates : List ℤ, today ∉ dates → (getStreak today dates).currentStreak = 0) := by
  have h1 : today - 1 ≠ today := by omega
  have h2 : today - 2 ≠ today := by omega
  have h3 : today - 2 ≠ today - 1 := by omega
  refine ⟨?_, ⟨?_, ?_⟩, ?_⟩
  · have hu : jsSetDedup [today, today - 1, today - 2]
        = [today, today - 1, today - 2] := by
      simp [jsSetDedup, List.filter, h1, h2, h3]
    have hloop : currentStreakLoop [today, today - 1, today - 2] today 365 = 3 := by
      rw [show (365 : ℕ) = 364 + 1 from rfl, currentStreakLoop_succ,
        if_pos (by simp)]
      rw [show (364 : ℕ) = 363 + 1 from rfl, currentStreakLoop_succ,
        if_pos (by simp)]
      rw [show (363 : ℕ) = 362 + 1 from rfl, currentStreakLoop_succ,
        if_pos (by simp; omega)]
      rw [show (362 : ℕ) = 361 + 1 from rfl, currentStreakLoop_succ,
        if_neg (by intro hc; simp at hc; omega)]
    simp [getStreak, hu, hloop]
  · have hu : jsSetDedup [today - 2] = [today - 2] := by
      simp [jsSetDedup]
    have hloop : currentStreakLoop [today - 2] today 365 = 0 := by
      rw [show (365 : ℕ) = 364 + 1 from rfl, currentStreakLoop_succ,
        if_neg (by intro hc; simp at hc; omega)]
    simp [getStreak, hu, hloop]
  · have hu : jsSetDedup [today - 2] = [today - 2] := by
      simp [jsSetDedup]
    have hloop : currentStreakLoop [today - 2] today 365 = 0 := by
      rw [show (365 : ℕ) = 364 + 1 from rfl, currentStreakLoop_succ,
        if_neg (by intro hc; simp at hc; omega)]
    simp [getStreak, hu, hloop, longestAux]
  · intro dates hnot
    by_cases hd : dates.isEmpty
    · simp [getStreak, hd]
    · have hloop : currentStreakLoop (jsSetDedup dates) today 365 = 0 := by
        rw [show (365 : ℕ) = 364 + 1 from rfl, currentStreakLoop_succ,
          if_neg fun hc => hnot ((jsSetDedup_mem _ _).mp hc)]
      simp [getStreak, hd, hloop]

/-- C10: the current streak is capped at `365` — the backward walk runs at
most `365` iterations — and a user with completions on `366` consecutive
days ending today is reported with a current streak of exactly `365`. -/
theorem getStreak_cap (today : ℤ) (dates : List ℤ) :
    (getStreak today dates).currentStreak ≤ 365 ∧
    (getStreak today ((List.range 366).map fun i : ℕ => today - (i : ℤ))).currentStreak
      = 365 := by
  constructor
  · by_cases h : dates.isEmpty
    · simp [getStreak, h]
    · simp only [getStreak, h, Bool.false_eq_true, if_false]
      exact currentStreakLoop_le _ _ _
  · have hempty : ((List.range 366).map fun i : ℕ => today - (i : ℤ)).isEmpty = false := by
      simp
    have hmem : ∀ k : ℕ, k < 365 →
        today - (k : ℤ) ∈ jsSetDedup ((List.range 366).map fun i : ℕ => today - (i : ℤ)) := by
      intro k hk
      rw [jsSetDedup_mem, List.mem_map]
      refine ⟨k, ?_, rfl⟩
      rw [List.mem_range]
      omega
    simp only [getStreak, hempty, Bool.false_eq_true, if_false]
    exact currentStreakLoop_full _ _ _ hmem

/-! ## Coaching text layer (aiCoaching.service.js)

String helpers model the line-oriented regular expressions of
`parseLLMCoachingResponse`; numbers interpolated into template strings are
rendered with `toString` (only their non-emptiness matters in any theorem
below). -/

/-- Substring test (`pat` non-empty in all uses). -/
def containsSub (s pat : String) : Bool := 1 < (s.splitOn pat).length

/-- Case-insensitive substring test. -/
def lcContains (s pat : String) : Bool := containsSub s.toLower pat

/-- `/a.*b/i` on a single line: an occurrence of `b` after an occurrence
of `a`, case-folded. -/
def lcInOrder (s a b : String) : Bool :=
  match s.toLower.splitOn a with
  | [] => false
  | [_] => false
  | _ :: rest => containsSub (String.intercalate a rest) b

/-- The four sections of a parsed coaching response. -/
inductive CoachSection where
  | highlights
  | insights
  | recommendations
  | motivation
  deriving DecidableEq, Repr

/-- The section-header tests of `parseLLMCoachingResponse`, applied to a
trimmed line in the source's order: `/progress.*highlight/i` or
`/^#+.*highlight/i`; `/key.*insight/i` or `/^#+.*insight/i`;
`/recommendation/i`; `/motivation/i`. -/
def sectionOf (trimmed : String) : Option CoachSection :=
  if lcInOrder trimmed "progress" "highlight" ||
      (trimmed.startsWith "#" && lcContains trimmed "highlight") then
    some .highlights
  else if lcInOrder trimmed "key" "insight" ||
      (trimmed.startsWith "#" && lcContains trimmed "insight") then
    some .insights
  else if lcContains trimmed "recommendation" then some .recommendations
  else if lcContains trimmed "motivation" then some .motivation
  else none

/-- `/^[-*•]\s/`: a bullet line. -/
def isBulletLine (t : String) : Bool :=
  match t.data with
  | c :: d :: _ => (c == '-' || c == '*' || c == '•') && d.isWhitespace
  | _ => false

/-- `.replace(/^[-*•]\s*/, '')`. -/
def stripBullet (t : String) : String :=
  match t.data with
  | c :: rest =>
    if c == '-' || c == '*' || c == '•' then
      String.mk (rest.dropWhile Char.isWhitespace)
    else t
  | [] => t

/-- `.replace(/^[*-]\s*/, '')` (the narrower bullet set used for the
highlights/motivation text sections). -/
def stripBulletHM (t : String) : String :=
  match t.data with
  | c :: rest =>
    if c == '*' || c == '-' then String.mk (rest.dropWhile Char.isWhitespace)
    else t
  | [] => t

/-- The accumulating `sections` object of `parseLLMCoachingResponse`. -/
structure ParsedCoaching where
  highlights : String
  insights : List String
  recommendations : List String
  motivation : String
  deriving DecidableEq, Repr

/-- One line of the parsing loop: a section-header line switches the
current section; otherwise a non-blank line is appended to the current
text section (space-separated) or, when it is a bullet, pushed onto the
current list section. -/
def parseLine (st : ParsedCoaching × Option CoachSection) (line : String) :
    ParsedCoaching × Option CoachSection :=
  let trimmed := line.trim
  match sectionOf trimmed with
  | some sec => (st.1, some sec)
  | none =>
    if trimmed ≠ "" then
      match st.2 with
      | some .highlights =>
        ({ st.1 with highlights := st.1.highlights ++
            (if st.1.highlights ≠ "" then " " else "") ++ stripBulletHM trimmed },
          st.2)
      | some .motivation =>
        ({ st.1 with motivation := st.1.motivation ++
            (if st.1.motivation ≠ "" then " " else "") ++ stripBulletHM trimmed },
          st.2)
      | some .insights =>
        if isBulletLine trimmed then
          ({ st.1 with insights := st.1.insights ++ [stripBullet trimmed] }, st.2)
        else st
      | some .recommendations =>
        if isBulletLine trimmed then
          ({ st.1 with recommendations :=
              st.1.recommendations ++ [stripBullet trimmed] }, st.2)
        else st
      | none => st
    else st

/-- `parseLLMCoachingResponse(llmText)`: fold the header/content scan over
the lines, then drop empty entries from the two list sections (the
source's truthiness `filter`). -/
def parseLLMCoachingResponse (llmText : String) : ParsedCoaching :=
  let final := (llmText.splitOn "\n").foldl parseLine (⟨"", [], [], ""⟩, none)
  { highlights := final.1.highlights
    insights := final.1.insights.filter fun i => i ≠ ""
    recommendations := final.1.recommendations.filter fun r => r ≠ ""
    motivation := final.1.motivation }

/-- `Array.join(' ')`. -/
def joinSp : List String → String
  | [] => ""
  | [x] => x
  | x :: y :: t => x ++ " " ++ joinSp (y :: t)

/-- `x.toFixed(1)` interpolation on a possibly-`NaN` number (decimal
formatting abstracted as `toString`; `NaN` prints `"NaN"`). -/
def jsToFixed1Str (x : Option ℚ) : String :=
  match x with
  | none => "NaN"
  | some q => toString (toFixed1Q q)

/-- `generateHighlights(velocity, streak)`. -/
def generateHighlights (velocity : Velocity) (streak : StreakInfo) : String :=
  let l1 : List String :=
    if 20 < velocity.totals.tasksCompleted then
      ["Great work! You completed " ++ toString velocity.totals.tasksCompleted ++
        " tasks in the last 30 days."]
    else []
  let l2 : List String :=
    if 7 ≤ streak.currentStreak then
      ["You're on fire with a " ++ toString streak.currentStreak ++ "-day streak!"]
    else if 3 ≤ streak.currentStreak then
      ["Keep it up! You have a " ++ toString streak.currentStreak ++
        "-day streak going."]
    else []
  let l3 : List String :=
    if velocity.trend = "increasing" then
      ["Your productivity is trending upward - momentum is building!"]
    else []
  let highlights := l1 ++ l2 ++ l3
  joinSp (if highlights = [] then
    ["You're working on your roadmap. Every step forward counts!"]
  else highlights)

/-- `generateInsights(velocity, bottlenecks)`. -/
def generateInsights (velocity : Velocity) (bottlenecks : BottleneckReport) :
    List String :=
  let i1 : List String :=
    if jsLt velocity.averages.tasksPerWeek (some 3) &&
        decide (0 < velocity.totals.tasksCompleted) then
      ["You're completing about " ++ jsToFixed1Str velocity.averages.tasksPerWeek ++
        " tasks per week. Consider increasing your pace to maintain momentum."]
    else []
  let i2 : List String :=
    if 0 < bottlenecks.summary.totalOverdue then
      ["You have " ++ toString bottlenecks.summary.totalOverdue ++
        " overdue milestone" ++
        (if 1 < bottlenecks.summary.totalOverdue then "s" else "") ++
        ". Addressing these should be a priority."]
    else []
  let i3 : List String :=
    if 0 < bottlenecks.strugglingGoals.length then
      [toString bottlenecks.strugglingGoals.length ++ " goal" ++
        (if 1 < bottlenecks.strugglingGoals.length then "s are" else " is") ++
        " showing low progress. These may need more attention or timeline adjustment."]
    else []
  let i4 : List String :=
    if velocity.trend = "decreasing" then
      ["Your task completion rate has decreased recently. Consider reviewing your schedule and priorities."]
    else []
  let insights := i1 ++ i2 ++ i3 ++ i4
  if insights = [] then
    ["Your progress is steady. Keep maintaining your current approach."]
  else insights

/-- `generateRecommendations(bottlenecks, velocity)`. -/
def generateRecommendations (bottlenecks : BottleneckReport) (velocity : Velocity) :
    List String :=
  let r1 : List String :=
    if 0 < bottlenecks.summary.totalOverdue then
      ["Review overdue milestones and either reschedule them or break them into smaller tasks."]
    else []
  let r2 : List String :=
    match bottlenecks.strugglingGoals with
    | [] => []
    | g :: _ =>
      ["Focus on \"" ++ g.goalTitle ++ "\" (" ++ g.category ++ ") - it needs attention."]
  let r3 : List String :=
    if jsLt velocity.averages.tasksPerWeek (some 2) then
      ["Try to complete at least 3-5 tasks per week to build momentum."]
    else []
  let r4 : List String :=
    match bottlenecks.underperformingCategories with
    | [] => []
    | c :: _ => ["Dedicate more time to your " ++ c.category ++ " goals this week."]
  let recommendations := r1 ++ r2 ++ r3 ++ r4
  if recommendations = [] then
    ["Continue your current pace and stay consistent.",
      "Review your roadmap weekly to stay aligned with your vision."]
  else recommendations

/-- `generateMotivation(streak, velocity)`. -/
def generateMotivation (streak : StreakInfo) (velocity : Velocity) : String :=
  if 7 ≤ streak.currentStreak then
    "You're building incredible momentum! Consistency is the key to achieving your 5-year vision. Keep going!"
  else if velocity.trend = "increasing" then
    "Your upward trend shows you're finding your rhythm. Trust the process and keep pushing forward!"
  else if 0 < velocity.totals.tasksCompleted then
    "Every task completed is a step closer to your dreams. You've got this!"
  else
    "Getting started is the hardest part, but you're here and ready. Take it one task at a time!"

/-- The `analytics` echo attached to every coaching result. -/
structure CoachingAnalytics where
  velocityTrend : String
  tasksPerWeek : Option ℚ
  currentStreak : ℕ
  bottleneckSeverity : String
  overdueCount : ℕ
  deriving DecidableEq, Repr

/-- A weekly coaching result. -/
structure Coaching where
  highlights : String
  insights : List String
  recommendations : List String
  motivation : String
  analytics : CoachingAnalytics
  deriving DecidableEq, Repr

/-- `generateFallbackCoaching(userId)`: the rule-template result built from
the user's analytics (passed here as the already-computed reports). -/
def generateFallbackCoaching (velocity : Velocity) (bottlenecks : BottleneckReport)
    (streak : StreakInfo) : Coaching :=
  { highlights := generateHighlights velocity streak
    insights := generateInsights velocity bottlenecks
    recommendations := generateRecommendations bottlenecks velocity
    motivation := generateMotivation streak velocity
    analytics :=
      { velocityTrend := velocity.trend
        tasksPerWeek := velocity.averages.tasksPerWeek
        currentStreak := streak.currentStreak
        bottleneckSeverity := bottlenecks.summary.severity
        overdueCount := bottlenecks.summary.totalOverdue } }

/-- `generateWeeklyCoaching(userId)`: `llmResponse` is the external
text-generation call's result (`none` = it threw after exhausting its
retries).  The whole body is a `try`/`catch`; a failed call lands in the
`catch`, which returns `generateFallbackCoaching(userId)` (the parameter
`userId` is in scope there). -/
def generateWeeklyCoaching (llmResponse : Option String) (velocity : Velocity)
    (bottlenecks : BottleneckReport) (streak : StreakInfo) : Coaching :=
  match llmResponse with
  | some text =>
    let parsed := parseLLMCoachingResponse text
    { highlights := parsed.highlights
      insights := parsed.insights
      recommendations := parsed.recommendations
      motivation := parsed.motivation
      analytics :=
        { velocityTrend := velocity.trend
          tasksPerWeek := velocity.averages.tasksPerWeek
          currentStreak := streak.currentStreak
          bottleneckSeverity := bottlenecks.summary.severity
          overdueCount := bottlenecks.summary.totalOverdue } }
  | none => generateFallbackCoaching velocity bottlenecks streak

theorem str_append_ne_empty_left (a b : String) (ha : a ≠ "") : a ++ b ≠ "" := by
  intro hc
  apply ha
  have hlen : (a ++ b).length = 0 := by rw [hc]; rfl
  rw [String.length_append] at hlen
  have ha0 : a.length = 0 := by omega
  cases a with
  | mk data =>
    cases data with
    | nil => rfl
    | cons c cs => simp [String.length] at ha0

theorem joinSp_ne_empty (l : List String) (hne : l ≠ [])
    (hall : ∀ x ∈ l, x ≠ "") : joinSp l ≠ "" := by
  match l with
  | [] => exact absurd rfl hne
  | [x] => exact hall x (by simp)
  | x :: y :: t =>
    show x ++ " " ++ joinSp (y :: t) ≠ ""
    exact str_append_ne_empty_left _ _
      (str_append_ne_empty_left _ _ (hall x (by simp)))

theorem if_eq_nil_ne {α : Type} [DecidableEq α] (L D : List α) (hD : D ≠ []) :
    (if L = [] then D else L) ≠ [] := by
  split
  · exact hD
  · rename_i h
    exact h

theorem mem_ite_of_mem {α : Type} [DecidableEq α] (x : α) (L D : List α)
    (hx : x ∈ (if L = [] then D else L)) : x ∈ D ∨ x ∈ L := by
  split at hx
  · exact Or.inl hx
  · exact Or.inr hx

theorem generateHighlights_ne (velocity : Velocity) (streak : StreakInfo) :
    generateHighlights velocity streak ≠ "" := by
  simp only [generateHighlights]
  apply joinSp_ne_empty
  · apply if_eq_nil_ne
    simp
  · intro x hx
    rcases mem_ite_of_mem x _ _ hx with hx | hx
    · simp only [List.mem_singleton] at hx
      subst hx
      decide
    · simp only [List.mem_append] at hx
      rcases hx with (hx | hx) | hx
      · split at hx
        · simp only [List.mem_singleton] at hx
          subst hx
          exact str_append_ne_empty_left _ _ (str_append_ne_empty_left _ _ (by decide))
        · simp at hx
      · split at hx
        · simp only [List.mem_singleton] at hx
          subst hx
          exact str_append_ne_empty_left _ _ (str_append_ne_empty_left _ _ (by decide))
        · split at hx
          · simp only [List.mem_singleton] at hx
            subst hx
            exact str_append_ne_empty_left _ _ (str_append_ne_empty_left _ _ (by decide))
          · simp at hx
      · split at hx
        · simp only [List.mem_singleton] at hx
          subst hx
          decide
        · simp at hx

/-- C8: with the external call failing on every attempt, the coaching
entry point returns the rule-template fallback, and its `highlights`,
`insights`, `recommendations` and `motivation` are all non-empty. -/
theorem generateWeeklyCoaching_fallback (velocity : Velocity)
    (bottlenecks : BottleneckReport) (streak : StreakInfo) :
    generateWeeklyCoaching none velocity bottlenecks streak
      = generateFallbackCoaching velocity bottlenecks streak ∧
    (generateWeeklyCoaching none velocity bottlenecks streak).highlights ≠ "" ∧
    (generateWeeklyCoaching none velocity bottlenecks streak).insights ≠ [] ∧
    (generateWeeklyCoaching none velocity bottlenecks streak).recommendations ≠ [] ∧
    (generateWeeklyCoaching none velocity bottlenecks streak).motivation ≠ "" := by
  refine ⟨rfl, ?_, ?_, ?_, ?_⟩
  · exact generateHighlights_ne velocity streak
  · show generateInsights velocity bottlenecks ≠ []
    simp only [generateInsights]
    apply if_eq_nil_ne
    simp
  · show generateRecommendations bottlenecks velocity ≠ []
    simp only [generateRecommendations]
    apply if_eq_nil_ne
    simp
  · show generateMotivation streak velocity ≠ ""
    unfold generateMotivation
    split_ifs <;> decide

/-! ## Milestone suggestion (aiCoaching.service.js `suggestMilestones`) -/

/-- Index of the first occurrence of `pat` in `hay`. -/
def findSubIdx : List Char → List Char → Option ℕ
  | [], pat => if pat.isEmpty then some 0 else none
  | h :: t, pat =>
    if pat.isPrefixOf (h :: t) then some 0 else (findSubIdx t pat).map (· + 1)

/-- The characters after the first case-insensitive occurrence of the
(lowercase) `marker`. -/
def afterMarker (s marker : String) : Option (List Char) :=
  (findSubIdx s.toLower.data marker.data).map fun i =>
    s.data.drop (i + marker.length)

/-- `/MILESTONE:\s*(.+)/i` then `.trim()`: the captured title.  `none` when
the regex does not match (no occurrence, or only newlines after the
marker); when only non-newline whitespace follows, the backtracked capture
is whitespace and trims to `""`. -/
def milestoneTitleOf (block : String) : Option String :=
  match afterMarker block "milestone:" with
  | none => none
  | some rest =>
    if rest.any (fun c => c != '\n') then
      let t := rest.dropWhile Char.isWhitespace
      some (if t.isEmpty then ""
        else (String.mk (t.takeWhile (fun c => c != '\n'))).trim)
    else none

/-- `/DESCRIPTION:\s*(.+?)(?=EFFORT:|$)/is` then `.trim().replace(/\n/g, ' ')`:
the lazy capture runs from after the whitespace up to the first later
`EFFORT:` (or the end); a missing match contributes `''`. -/
def milestoneDescOf (block : String) : String :=
  match afterMarker block "description:" with
  | none => ""
  | some rest =>
    let afterWs := rest.dropWhile Char.isWhitespace
    match afterWs with
    | [] => ""
    | c :: cs =>
      let cut :=
        match (findSubIdx (cs.map Char.toLower) "effort:".data).map (· + 1) with
        | some j => (c :: cs).take j
        | none => c :: cs
      String.mk ((String.mk cut).trim.data.map fun ch =>
        if ch == '\n' then ' ' else ch)

/-- `parseInt` on a digit run. -/
def digitsToNat (ds : List Char) : ℕ :=
  ds.foldl (fun n c => n * 10 + (c.toNat - 48)) 0

/-- `/EFFORT:\s*(\d+)/i`: scan the occurrences of `EFFORT:` left to right
and take the first whose whitespace skip is followed by at least one
digit. -/
def effortOf : List Char → Option ℕ
  | [] => none
  | c :: rest =>
    if "effort:".data.isPrefixOf ((c :: rest).map Char.toLower) then
      let after := (c :: rest).drop 7
      let digits := (after.dropWhile Char.isWhitespace).takeWhile Char.isDigit
      if digits.isEmpty then effortOf rest else some (digitsToNat digits)
    else effortOf rest

/-- One suggested milestone. -/
structure MilestoneSuggestion where
  title : String
  description : String
  estimatedEffortHours : ℕ
  deriving DecidableEq, Repr

/-- `parseMilestoneSuggestions(llmText, goal)` (the `goal` parameter is
unused by the source body): split on `---`, keep non-blank blocks, and
push one suggestion per block whose `MILESTONE:` pattern matches, with
effort defaulting to `20`. -/
def parseMilestoneSuggestions (llmText : String) : List MilestoneSuggestion :=
  ((llmText.splitOn "---").filter fun b => b.trim ≠ "").filterMap fun block =>
    (milestoneTitleOf block).map fun title =>
      { title := title
        description := milestoneDescOf block
        estimatedEffortHours := (effortOf block.data).getD 20 }

/-- The goal row as `suggestMilestones` selects it. -/
structure SGoal where
  title : String
  description : Option String
  category : String
  currentState : Option String
  desiredState : Option String
  targetYear : ℕ
  priority : ℕ
  milestoneTitles : List String
  deriving DecidableEq, Repr

/-- `generateFallbackMilestones(goal)`: the deterministic template list
keyed by category (`templates[category] || templates.career`). -/
def generateFallbackMilestones (goal : SGoal) : List MilestoneSuggestion :=
  let careerTemplate : List (String × ℕ) :=
    [("Complete skill assessment and create learning plan", 10),
      ("Achieve intermediate proficiency in key skills", 40),
      ("Complete major project or certification", 60),
      ("Reach target position or capability", 30)]
  let healthTemplate : List (String × ℕ) :=
    [("Establish baseline and create routine", 8),
      ("Build consistent habit (30 days)", 15),
      ("Reach intermediate goal markers", 20),
      ("Achieve target health metrics", 15)]
  let financeTemplate : List (String × ℕ) :=
    [("Audit current finances and set targets", 5),
      ("Implement savings/investment plan", 10),
      ("Reach 50% of financial goal", 20),
      ("Achieve full financial target", 15)]
  let template :=
    if goal.category = "career" then careerTemplate
    else if goal.category = "health" then healthTemplate
    else if goal.category = "finance" then financeTemplate
    else careerTemplate
  template.map fun t =>
    { title := t.1
      description := t.1 ++ " for: " ++ goal.title
      estimatedEffortHours := t.2 }

/-- `suggestMilestones(goalId)` (aiCoaching.service.js): `goalRow` is the
`findUnique` result and `llmResponse` the external call's text (`none` =
the call threw after exhausting its retries).  The body is a `try` whose
`catch` calls `generateFallbackMilestones(goal)` — but `goal` is declared
with `const` INSIDE the `try` block, so it is not in scope in the `catch`
block and that call itself throws a `ReferenceError` (`goal is not
defined`), which rejects the returned promise.  Both failure paths (goal
not found, LLM failure) therefore surface that `ReferenceError`. -/
def suggestMilestones (goalRow : Option SGoal) (llmResponse : Option String) :
    Except String (List MilestoneSuggestion) :=
  match goalRow with
  | none => Except.error "ReferenceError: goal is not defined"
  | some _goal =>
    match llmResponse with
    | some text => Except.ok (parseMilestoneSuggestions text)
    | none => Except.error "ReferenceError: goal is not defined"

/-- An existing goal, as the failing input for C9. -/
def sampleGoal : SGoal :=
  { title := "Become a senior engineer"
    description := none
    category := "career"
    currentState := none
    desiredState := none
    targetYear := 1
    priority := 3
    milestoneTitles := [] }

/-- C9 (code evidence): for an existing goal, when the external call fails
after its retries, `suggestMilestones` does NOT return the rule-based
fallback list — the `catch` block's reference to the `try`-scoped `goal`
throws a `ReferenceError` that propagates to the caller — even though the
fallback generator itself would have produced `4` non-empty suggestions
from the category template. -/
theorem suggestMilestones_scope_bug :
    suggestMilestones (some sampleGoal) none
      = Except.error "ReferenceError: goal is not defined" ∧
    (∀ suggestions, suggestMilestones (some sampleGoal) none ≠ Except.ok suggestions) ∧
    generateFallbackMilestones sampleGoal ≠ [] ∧
    (generateFallbackMilestones sampleGoal).length = 4 := by
  refine ⟨rfl, ?_, by decide, by decide⟩
  intro suggestions hc
  exact absurd hc (by simp [suggestMilestones])

end Aura
